import Mathlib

/-
Shallow embedding of Turbo-Chat/timeable.js.

The source is a single class `Timeable` (src/timeable.js) wrapping a
one-second countdown:
  - constructor(elementId, duration, options): looks up a DOM element,
    logs an error and returns early when the lookup fails, otherwise
    stores duration/remainingTime/format/callbacks and renders;
  - start(): warns when an interval handle is present, otherwise schedules
    the periodic callback (modelled by `tick`, driven by `schedStep`);
  - pause(): clears the handle when present, otherwise warns;
  - reset(): pause, restore remainingTime, re-render, drop "complete" class;
  - complete(): pause, force the zero display, add "complete" class, call
    onComplete when present;
  - formatTime(seconds)/padZero(num): the display formatter.

DOM elements are modelled by their text content and class list; callback
invocations and console messages are recorded in the state so that the
theorems can speak about how often they happened.
-/

/-- A DOM element as the widget sees it: its text content (`innerText`)
and its class list.  `classList.add` is idempotent and `classList.remove`
removes the class, as in the DOM. -/
structure Elem where
  text : String
  classes : List String
deriving DecidableEq, Repr

/-- classList.add: append the class when absent (DOM class lists are sets). -/
def addClass (cs : List String) (c : String) : List String :=
  if cs.contains c then cs else cs ++ [c]

/-- classList.remove: drop the class. -/
def removeClass (cs : List String) (c : String) : List String :=
  cs.filter (fun x => x != c)

/-- A callback value supplied in the options object: absent (`undefined`),
present but not a function, or a function.  `typeof v === 'function'` is
`isFunc`. -/
inductive CbOpt
  | absent
  | nonfunction
  | func
deriving DecidableEq, Repr

/-- typeof check of the constructor: only a function passes. -/
def CbOpt.isFunc : CbOpt → Bool
  | .func => true
  | _ => false

/-- The options object accepted by the constructor: `format` (absent or a
string; the empty string is falsy in JS, so `options.format || 'mm:ss'`
replaces it by the default), `onComplete`, `onTick`. -/
structure Options where
  format : Option String
  onComplete : CbOpt
  onTick : CbOpt
deriving DecidableEq, Repr

/-- `options.format || 'mm:ss'`: absent or empty gives the default. -/
def Options.effFormat (o : Options) : String :=
  match o.format with
  | none => "mm:ss"
  | some f => if f = "" then "mm:ss" else f

/-- Does `hay` start with `needle`? (character-by-character). -/
def prefMatch : List Char → List Char → Bool
  | [], _ => true
  | _ :: _, [] => false
  | a :: s, b :: t => a == b && prefMatch s t

/-- Does `hay` contain `needle` as a contiguous run? -/
def hasSub (hay needle : List Char) : Bool :=
  prefMatch needle hay ||
    match hay with
    | [] => false
    | _ :: t => hasSub t needle

/-- JS `String.prototype.includes`: substring containment. -/
def jsIncludes (s sub : String) : Bool :=
  hasSub s.toList sub.toList

/-- JS `%` on integers: truncated remainder, sign of the dividend. -/
def jsRem (a b : Int) : Int :=
  Int.sign a * ((Int.natAbs a % Int.natAbs b : Nat) : Int)

/-- Timeable.padZero: prefix numbers below 10 with "0", otherwise the
plain decimal string. -/
def padZero (num : Int) : String :=
  if num < 10 then "0" ++ toString num else toString num

/-- Timeable.formatTime: split `seconds` into hours/minutes/seconds
(`Math.floor(seconds / 3600)`, `Math.floor((seconds % 3600) / 60)`,
`seconds % 60`) and emit the components whose token occurs in the format
string, `hh` and `mm` each followed by a colon. -/
def formatTime (format : String) (seconds : Int) : String :=
  let hrs := Int.fdiv seconds 3600
  let mins := Int.fdiv (jsRem seconds 3600) 60
  let secs := jsRem seconds 60
  let f1 := if jsIncludes format "hh" then padZero hrs ++ ":" else ""
  let f2 := if jsIncludes format "mm" then padZero mins ++ ":" else ""
  let f3 := if jsIncludes format "ss" then padZero secs else ""
  f1 ++ f2 ++ f3

/-- The fields the constructor initializes after a successful element
lookup.  `interval` is the truthiness of `this.interval` (a live handle
from `setInterval` vs `null`); `onComplete`/`onTick` record whether a
function was stored (otherwise the field is `null`). -/
structure TState where
  duration : Int
  remainingTime : Int
  interval : Bool
  format : String
  onComplete : Bool
  onTick : Bool
deriving DecidableEq, Repr

/-- Result of `new Timeable(...)`: on lookup failure the constructor logs
an error and returns before initializing any timer field (`this.element`
is the null lookup result), otherwise every field is set and the initial
display is rendered. -/
inductive ConsResult
  | failed
  | ok (element : Elem) (st : TState)
deriving DecidableEq, Repr

/-- `this.element` of the constructed object: null on failure. -/
def ConsResult.element : ConsResult → Option Elem
  | .failed => none
  | .ok e _ => some e

/-- Whether `console.error` ran during construction (only the failed
lookup branch logs). -/
def ConsResult.errorLogged : ConsResult → Bool
  | .failed => true
  | .ok _ _ => false

/-- Timeable.render: add the `timeable-timer` class and set the text to
the formatted remaining time. -/
def render (format : String) (remainingTime : Int) (e : Elem) : Elem :=
  { e with
    classes := addClass e.classes "timeable-timer",
    text := formatTime format remainingTime }

/-- Timeable constructor.  `lookup` is the result of
`document.getElementById(elementId)`. -/
def construct (lookup : Option Elem) (duration : Int) (opts : Options) :
    ConsResult :=
  match lookup with
  | none => .failed
  | some e =>
    let st : TState :=
      { duration := duration
        remainingTime := duration
        interval := false
        format := opts.effFormat
        onComplete := opts.onComplete.isFunc
        onTick := opts.onTick.isFunc }
    .ok (render st.format st.remainingTime e) st

/-- A live widget together with its element and the record of its
observable effects: arguments passed to `onTick`, number of `onComplete`
invocations, number of `console.warn` messages. -/
structure World where
  st : TState
  elem : Elem
  tickCalls : List Int
  completeCalls : Nat
  warnings : Nat
deriving DecidableEq, Repr

/-- Package a successful construction as a fresh world. -/
def initWorld (e : Elem) (st : TState) : World :=
  { st := st, elem := e, tickCalls := [], completeCalls := 0, warnings := 0 }

/-- Timeable.updateDisplay. -/
def updateDisplay (w : World) : World :=
  { w with elem := { w.elem with text := formatTime w.st.format w.st.remainingTime } }

/-- Timeable.start: warn when an interval handle is present, otherwise
schedule the periodic callback. -/
def start (w : World) : World :=
  if w.st.interval then { w with warnings := w.warnings + 1 }
  else { w with st := { w.st with interval := true } }

/-- Timeable.pause: clear the handle when present, otherwise warn. -/
def pause (w : World) : World :=
  if w.st.interval then { w with st := { w.st with interval := false } }
  else { w with warnings := w.warnings + 1 }

/-- Timeable.complete: pause, force the zero display, add the `complete`
class, invoke `onComplete` when present. -/
def complete (w : World) : World :=
  let w1 := pause w
  let w2 := { w1 with elem := { w1.elem with text := formatTime w1.st.format 0 } }
  let w3 := { w2 with elem := { w2.elem with classes := addClass w2.elem.classes "complete" } }
  if w3.st.onComplete then { w3 with completeCalls := w3.completeCalls + 1 } else w3

/-- The body of the `setInterval` callback: decrement and display while
time remains (then report the new remaining time to `onTick`), otherwise
complete. -/
def tick (w : World) : World :=
  if w.st.remainingTime > 0 then
    let w1 := { w with st := { w.st with remainingTime := w.st.remainingTime - 1 } }
    let w2 := updateDisplay w1
    if w2.st.onTick then { w2 with tickCalls := w2.tickCalls ++ [w2.st.remainingTime] }
    else w2
  else complete w

/-- One period of the host scheduler: the interval callback fires exactly
when a handle is scheduled. -/
def schedStep (w : World) : World :=
  if w.st.interval then tick w else w

/-- Timeable.reset: pause, restore the full duration, re-render, drop the
`complete` class. -/
def reset (w : World) : World :=
  let w1 := pause w
  let w2 := { w1 with st := { w1.st with remainingTime := w1.st.duration } }
  let w3 := updateDisplay w2
  { w3 with elem := { w3.elem with classes := removeClass w3.elem.classes "complete" } }

/-- initializeTimer: construct, and when the element resolved, start the
widget and return it; otherwise return null. -/
def initializeTimer (lookup : Option Elem) (duration : Int) (opts : Options) :
    Option World :=
  match construct lookup duration opts with
  | .failed => none
  | .ok e st => some (start (initWorld e st))

/-- The external operations a host can perform on a live widget, plus one
scheduler period. -/
inductive Op
  | opStart
  | opPause
  | opReset
  | opTickPeriod
deriving DecidableEq, Repr

/-- Apply one operation. -/
def applyOp (w : World) : Op → World
  | .opStart => start w
  | .opPause => pause w
  | .opReset => reset w
  | .opTickPeriod => schedStep w

/-- Run a sequence of operations. -/
def runOps (w : World) (ops : List Op) : World :=
  ops.foldl applyOp w

/-- A state is reachable from `w0` when some operation sequence produces it. -/
def Reachable (w0 w : World) : Prop :=
  ∃ ops : List Op, runOps w0 ops = w

/-- Join a list of rendered components with single colons between adjacent
entries — the spec's description of how requested components are combined
(no leading or trailing separator). -/
def joinColon : List String → String
  | [] => ""
  | [x] => x
  | x :: y :: rest => x ++ ":" ++ joinColon (y :: rest)

/-- The list of components the format requests, rendered in the fixed
hour, minute, second order. -/
def specComponents (format : String) (seconds : Int) : List String :=
  (if jsIncludes format "hh" then [padZero (Int.fdiv seconds 3600)] else []) ++
    (if jsIncludes format "mm" then [padZero (Int.fdiv (jsRem seconds 3600) 60)] else []) ++
      (if jsIncludes format "ss" then [padZero (jsRem seconds 60)] else [])

/-- The formatter as claim C4 describes it: the requested components joined
by single colons with no leading or trailing colon. -/
def specFormatTime (format : String) (seconds : Int) : String :=
  joinColon (specComponents format seconds)

/- Helper lemmas. -/

theorem fdiv_natCast (s m : Nat) :
    Int.fdiv (s : Int) (m : Int) = ((s / m : Nat) : Int) := by
  cases s with
  | zero => simp [Int.fdiv]
  | succ k => rfl

theorem jsRem_natCast (s m : Nat) :
    jsRem (s : Int) (m : Int) = ((s % m : Nat) : Int) := by
  cases s with
  | zero => simp [jsRem]
  | succ k =>
    show Int.sign (Int.ofNat (k + 1)) * _ = _
    rw [show Int.sign (Int.ofNat (k + 1)) = 1 from rfl, one_mul]
    rfl

theorem toString_natCast (n : Nat) : toString (n : Int) = toString n := rfl

/-- C3: for every non-negative seconds value `s`, `formatTime` splits `s`
into `hours = s / 3600`, `minutes = (s % 3600) / 60`, `seconds = s % 60`,
zero-pads values below 10 with a leading "0", leaves values of 10 or more
(including 100 or more) untruncated, and in particular "ss" on 65 gives
"05", "mm:ss" on 65 gives "01:05", "hh:mm:ss" on 3661 gives "01:01:01",
and "mm:ss" on 0 gives "00:00". -/
theorem c3_formatTime_components :
    (∀ s : Nat, formatTime "hh:mm:ss" (s : Int) =
      padZero ((s / 3600 : Nat) : Int) ++ ":" ++
        padZero ((s % 3600 / 60 : Nat) : Int) ++ ":" ++
          padZero ((s % 60 : Nat) : Int)) ∧
    (∀ n : Nat, n < 10 → padZero (n : Int) = "0" ++ toString n) ∧
    (∀ n : Nat, 10 ≤ n → padZero (n : Int) = toString n) ∧
    formatTime "ss" 65 = "05" ∧
    formatTime "mm:ss" 65 = "01:05" ∧
    formatTime "hh:mm:ss" 3661 = "01:01:01" ∧
    formatTime "mm:ss" 0 = "00:00" := by
  refine ⟨?_, ?_, ?_, by decide, by decide, by decide, by decide⟩
  · intro s
    have hform : formatTime "hh:mm:ss" (s : Int) =
        (padZero (Int.fdiv (s : Int) 3600) ++ ":" ++
          (padZero (Int.fdiv (jsRem (s : Int) 3600) 60) ++ ":")) ++
            padZero (jsRem (s : Int) 60) := rfl
    have e1 : Int.fdiv (s : Int) 3600 = ((s / 3600 : Nat) : Int) :=
      fdiv_natCast s 3600
    have e2 : jsRem (s : Int) 3600 = ((s % 3600 : Nat) : Int) :=
      jsRem_natCast s 3600
    have e3 : Int.fdiv ((s % 3600 : Nat) : Int) 60 = ((s % 3600 / 60 : Nat) : Int) :=
      fdiv_natCast (s % 3600) 60
    have e4 : jsRem (s : Int) 60 = ((s % 60 : Nat) : Int) :=
      jsRem_natCast s 60
    rw [hform, e1, e2, e3, e4]
    simp [String.append_assoc]
  · intro n hn
    have h : (n : Int) < 10 := by exact_mod_cast hn
    simp [padZero, h, toString_natCast]
  · intro n hn
    have h : ¬ (n : Int) < 10 := by exact_mod_cast not_lt.mpr hn
    simp [padZero, h, toString_natCast]

/-- C3 witness: the padding branch of `c3_formatTime_components`
instantiated at 5. -/
theorem c3_formatTime_components_witness :
    padZero ((5 : Nat) : Int) = "0" ++ toString (5 : Nat) :=
  c3_formatTime_components.2.1 5 (by decide)

/-- C4 counterexample: on the token set {mm} the code emits "00:" with a
trailing colon, while the claim's colon-joined rendering is "00". -/
theorem c4_trailing_colon_counterexample :
    formatTime "mm" 0 = "00:" ∧
    specFormatTime "mm" 0 = "00" ∧
    formatTime "mm" 0 ≠ specFormatTime "mm" 0 := by decide

/-- C4 amended: `formatTime` emits exactly the requested components in the
fixed hour, minute, second order with a single colon between adjacent
components and no leading colon, omits components that are not requested,
and yields "" when no token is recognized; however each hour and minute
component carries its own trailing colon, so the output ends in a colon
exactly when the format requests hh or mm but not ss. -/
theorem c4_format_structure_amended :
    ∀ (fmt : String) (s : Int),
      formatTime fmt s =
        specFormatTime fmt s ++
          (if (jsIncludes fmt "hh" || jsIncludes fmt "mm") && !jsIncludes fmt "ss"
            then ":" else "") := by
  intro fmt s
  cases hh : jsIncludes fmt "hh" <;> cases hm : jsIncludes fmt "mm" <;>
    cases hs : jsIncludes fmt "ss" <;>
      simp [formatTime, specFormatTime, specComponents, joinColon, hh, hm, hs,
        String.append_assoc]

/- Class-list helper lemmas. -/

theorem mem_addClass (cs : List String) (c : String) : c ∈ addClass cs c := by
  unfold addClass
  split
  · next h => exact List.mem_of_elem_eq_true h
  · simp

theorem not_mem_removeClass (cs : List String) (c : String) :
    c ∉ removeClass cs c := by
  simp [removeClass]

/- Projection facts used by several lifecycle proofs. -/

theorem pause_st_besides_interval (w : World) :
    (pause w).st.remainingTime = w.st.remainingTime ∧
    (pause w).st.duration = w.st.duration ∧
    (pause w).st.format = w.st.format ∧
    (pause w).st.onComplete = w.st.onComplete ∧
    (pause w).st.onTick = w.st.onTick ∧
    (pause w).st.interval = false ∧
    (pause w).elem = w.elem ∧
    (pause w).tickCalls = w.tickCalls ∧
    (pause w).completeCalls = w.completeCalls := by
  unfold pause
  split <;> next h => simp [h]

/-- A world with no scheduled interval is fixed by the scheduler. -/
theorem schedStep_of_not_running (w : World) (h : w.st.interval = false) :
    schedStep w = w := by
  simp [schedStep, h]

/-- What `complete` does to a running widget, spelled out. -/
theorem complete_eq (w : World) (h : w.st.interval = true) :
    complete w =
      { st := { w.st with interval := false },
        elem := { text := formatTime w.st.format 0,
                  classes := addClass w.elem.classes "complete" },
        tickCalls := w.tickCalls,
        completeCalls := w.completeCalls + (if w.st.onComplete then 1 else 0),
        warnings := w.warnings } := by
  cases hC : w.st.onComplete <;> simp [complete, pause, h, hC]

/-- Sample world: duration 3, running, countdown exhausted, `onComplete`
stored. -/
def demoWorldZero : World :=
  { st := { duration := 3, remainingTime := 0, interval := true,
            format := "mm:ss", onComplete := true, onTick := false },
    elem := { text := "00:00", classes := ["timeable-timer"] },
    tickCalls := [], completeCalls := 0, warnings := 0 }

/-- C1: when the countdown expires naturally (the periodic callback fires
with no time remaining), that scheduler period runs `complete()`, which
adds the "complete" marker, forces the zero-formatted display, bumps the
`onComplete` invocation count by exactly one when the callback is present,
and clears the interval handle, so every later scheduler period leaves the
world untouched and `onComplete` is not invoked again until the timer is
restarted. -/
theorem c1_completion_fires_once (w : World)
    (hrun : w.st.interval = true) (hz : w.st.remainingTime ≤ 0) :
    schedStep w = complete w ∧
    (complete w).st.interval = false ∧
    (complete w).elem.text = formatTime w.st.format 0 ∧
    "complete" ∈ (complete w).elem.classes ∧
    (complete w).completeCalls =
      w.completeCalls + (if w.st.onComplete then 1 else 0) ∧
    (∀ n : Nat, schedStep^[n] (complete w) = complete w) := by
  have hc := complete_eq w hrun
  have hstep : schedStep w = complete w := by
    simp [schedStep, tick, hrun, not_lt.mpr hz]
  have hint : (complete w).st.interval = false := by rw [hc]
  refine ⟨hstep, hint, by rw [hc], ?_, by rw [hc],
    fun n => Function.iterate_fixed (schedStep_of_not_running _ hint) n⟩
  rw [hc]
  exact mem_addClass _ _

/-- C1 witness: `c1_completion_fires_once` at `demoWorldZero`. -/
theorem c1_completion_fires_once_witness :
    (complete demoWorldZero).st.interval = false ∧
    (complete demoWorldZero).completeCalls = demoWorldZero.completeCalls + 1 ∧
    schedStep^[5] (complete demoWorldZero) = complete demoWorldZero := by
  have h := c1_completion_fires_once demoWorldZero rfl (by decide)
  exact ⟨h.2.1, by rw [h.2.2.2.2.1]; decide, h.2.2.2.2.2 5⟩

/-- A bare element before construction. -/
def demoElem : Elem := { text := "", classes := [] }

/-- Options of the spec's scenario: format "mm:ss", an `onComplete`
function, no `onTick`. -/
def demoOpts3 : Options :=
  { format := some "mm:ss", onComplete := .func, onTick := .absent }

/-- The element as rendered by constructing the scenario widget. -/
def scenElem : Elem := { text := "00:03", classes := ["timeable-timer"] }

/-- The timer fields of the scenario widget. -/
def scenSt : TState :=
  { duration := 3, remainingTime := 3, interval := false,
    format := "mm:ss", onComplete := true, onTick := false }

/-- The scenario widget right after construction. -/
def scenW0 : World := initWorld scenElem scenSt

/-- C2 counterexample: in the duration-3 "mm:ss" scenario, after exactly
3 scheduler ticks the display reads "00:00" but the "complete" marker is
not yet set and `onComplete` has not been invoked — completion happens on
the tick after the countdown reaches zero, not on the transition from the
last non-zero tick. -/
theorem c2_three_ticks_counterexample :
    construct (some demoElem) 3 demoOpts3 = ConsResult.ok scenElem scenSt ∧
    (schedStep^[3] (start scenW0)).elem.text = "00:00" ∧
    (schedStep^[3] (start scenW0)).completeCalls = 0 ∧
    "complete" ∉ (schedStep^[3] (start scenW0)).elem.classes := by decide

/-- C2 amended: constructing with duration 3 and format "mm:ss" renders
"00:03"; after 3 ticks the display reads "00:00" but completion has not
fired; the completion side effect (the "complete" marker and exactly one
`onComplete` invocation) fires on the 4th tick, after which further
scheduler periods change nothing. -/
theorem c2_scenario_amended :
    construct (some demoElem) 3 demoOpts3 = ConsResult.ok scenElem scenSt ∧
    scenElem.text = "00:03" ∧
    (schedStep^[3] (start scenW0)).elem.text = "00:00" ∧
    (schedStep^[3] (start scenW0)).completeCalls = 0 ∧
    "complete" ∉ (schedStep^[3] (start scenW0)).elem.classes ∧
    (schedStep^[4] (start scenW0)).elem.text = "00:00" ∧
    "complete" ∈ (schedStep^[4] (start scenW0)).elem.classes ∧
    (schedStep^[4] (start scenW0)).completeCalls = 1 ∧
    (∀ n : Nat, schedStep^[n] (schedStep^[4] (start scenW0)) =
      schedStep^[4] (start scenW0)) := by
  refine ⟨by decide, by decide, by decide, by decide, by decide, by decide,
    by decide, by decide, fun n => Function.iterate_fixed (by decide) n⟩

/-- Each lifecycle operation and each scheduler period preserves
`0 ≤ remainingTime ≤ duration` (for a non-negative duration) and never
changes `duration`. -/
theorem applyOp_preserves_inv (w : World) (op : Op)
    (h0 : 0 ≤ w.st.remainingTime) (h1 : w.st.remainingTime ≤ w.st.duration) :
    (0 ≤ (applyOp w op).st.remainingTime ∧
      (applyOp w op).st.remainingTime ≤ (applyOp w op).st.duration) ∧
    (applyOp w op).st.duration = w.st.duration := by
  cases op <;>
    simp only [applyOp, start, pause, reset, schedStep, tick, complete,
      updateDisplay] <;>
    split_ifs <;> simp_all <;> omega

/-- Running any operation sequence preserves the countdown invariant. -/
theorem runOps_preserves_inv (ops : List Op) (w : World)
    (h0 : 0 ≤ w.st.remainingTime) (h1 : w.st.remainingTime ≤ w.st.duration) :
    0 ≤ (runOps w ops).st.remainingTime ∧
    (runOps w ops).st.remainingTime ≤ (runOps w ops).st.duration ∧
    (runOps w ops).st.duration = w.st.duration := by
  induction ops generalizing w with
  | nil => exact ⟨h0, h1, rfl⟩
  | cons op rest ih =>
    have hstep := applyOp_preserves_inv w op h0 h1
    have hrec := ih (applyOp w op) hstep.1.1 hstep.1.2
    exact ⟨hrec.1, hrec.2.1, hrec.2.2.trans hstep.2⟩

/-- C5: for a widget constructed with a positive duration `d`, every
reachable state keeps `0 ≤ remainingTime ≤ duration = d`; moreover the
tick callback leaves `remainingTime` unchanged once it is not positive,
and `reset` restores `remainingTime` to the full duration. -/
theorem c5_remaining_invariant (d : Int) (el e : Elem) (opts : Options)
    (st : TState) (w : World) (hd : 0 < d)
    (hcons : construct (some el) d opts = ConsResult.ok e st)
    (hreach : Reachable (initWorld e st) w) :
    (0 ≤ w.st.remainingTime ∧ w.st.remainingTime ≤ w.st.duration ∧
      w.st.duration = d) ∧
    (∀ v : World, v.st.remainingTime ≤ 0 →
      (tick v).st.remainingTime = v.st.remainingTime) ∧
    (∀ v : World, (reset v).st.remainingTime = v.st.duration) := by
  have hst : st.remainingTime = d ∧ st.duration = d := by
    simp only [construct, ConsResult.ok.injEq] at hcons
    rw [← hcons.2]
    exact ⟨rfl, rfl⟩
  obtain ⟨ops, hops⟩ := hreach
  have hw0 : (initWorld e st).st.remainingTime = d := hst.1
  have hwd : (initWorld e st).st.duration = d := hst.2
  have hrun := runOps_preserves_inv ops (initWorld e st)
    (by rw [hw0]; omega) (by rw [hw0, hwd])
  rw [hops] at hrun
  refine ⟨⟨hrun.1, hrun.2.1, hrun.2.2.trans hwd⟩, ?_, ?_⟩
  · intro v hv
    have hng : ¬ v.st.remainingTime > 0 := by omega
    simp only [tick, complete, pause, hng, if_false]
    split_ifs <;> simp
  · intro v
    simp only [reset, pause, updateDisplay]
    split_ifs <;> simp

/-- C5 witness: the invariant at the freshly constructed scenario widget. -/
theorem c5_remaining_invariant_witness :
    0 ≤ (initWorld scenElem scenSt).st.remainingTime ∧
    (initWorld scenElem scenSt).st.remainingTime ≤
      (initWorld scenElem scenSt).st.duration ∧
    (initWorld scenElem scenSt).st.duration = 3 :=
  (c5_remaining_invariant 3 demoElem scenElem demoOpts3 scenSt
    (initWorld scenElem scenSt) (by decide) (by decide) ⟨[], rfl⟩).1

/-- A scheduler period on a running widget with time remaining decrements
the countdown by exactly 1. -/
theorem schedStep_decrement (v : World) (hvi : v.st.interval = true)
    (hvp : 0 < v.st.remainingTime) :
    (schedStep v).st.remainingTime = v.st.remainingTime - 1 := by
  simp only [schedStep, tick, complete, pause, updateDisplay]
  split_ifs <;> simp_all

/-- C6: calling `start()` while the timer is running emits a warning and
is otherwise a no-op (it neither resets `remainingTime` nor schedules a
second periodic callback), so two consecutive `start()` calls leave the
widget in the same timer state as a single one and the countdown still
loses exactly 1 per tick. -/
theorem c6_start_guard (w : World) :
    (w.st.interval = true →
      start w = { w with warnings := w.warnings + 1 }) ∧
    (w.st.interval = false →
      (start (start w)).st = (start w).st ∧
      (start (start w)).elem = (start w).elem ∧
      (start (start w)).warnings = (start w).warnings + 1 ∧
      (start (start w)).st.remainingTime = w.st.remainingTime ∧
      (0 < w.st.remainingTime →
        (schedStep (start (start w))).st.remainingTime =
          w.st.remainingTime - 1 ∧
        (schedStep (start w)).st.remainingTime = w.st.remainingTime - 1)) := by
  constructor
  · intro h
    simp [start, h]
  · intro h
    have hs : start w = { w with st := { w.st with interval := true } } := by
      simp [start, h]
    have hss : start (start w) =
        { start w with warnings := (start w).warnings + 1 } := by
      rw [hs]
      simp [start]
    refine ⟨by rw [hss], by rw [hss], by rw [hss], by rw [hss, hs], ?_⟩
    intro hpos
    constructor
    · rw [schedStep_decrement _ (by rw [hss, hs]) (by rw [hss, hs]; exact hpos)]
      rw [hss, hs]
    · rw [schedStep_decrement _ (by rw [hs]) (by rw [hs]; exact hpos)]
      rw [hs]

/-- C6 witness: `c6_start_guard` at the started scenario widget and at the
fresh scenario widget. -/
theorem c6_start_guard_witness :
    start (start scenW0) =
      { start scenW0 with warnings := (start scenW0).warnings + 1 } ∧
    (schedStep (start (start scenW0))).st.remainingTime =
      scenW0.st.remainingTime - 1 :=
  ⟨(c6_start_guard (start scenW0)).1 (by decide),
   (((c6_start_guard scenW0).2 (by decide)).2.2.2.2 (by decide)).1⟩

/-- C7: `pause()` clears the interval handle when one is active and emits
a warning (changing nothing else) when the timer is not running; in both
cases `remainingTime` is untouched, so a later `start()` resumes the
countdown from the paused value rather than from the full duration. -/
theorem c7_pause_behavior (w : World) :
    (pause w).st.remainingTime = w.st.remainingTime ∧
    (pause w).st.duration = w.st.duration ∧
    (pause w).st.interval = false ∧
    (w.st.interval = true →
      pause w = { w with st := { w.st with interval := false } }) ∧
    (w.st.interval = false →
      pause w = { w with warnings := w.warnings + 1 }) ∧
    (start (pause w)).st.remainingTime = w.st.remainingTime ∧
    (0 < w.st.remainingTime →
      (schedStep (start (pause w))).st.remainingTime =
        w.st.remainingTime - 1) := by
  have hp := pause_st_besides_interval w
  have h1 : start (pause w) =
      { pause w with st := { (pause w).st with interval := true } } := by
    simp [start, hp.2.2.2.2.2.1]
  have hsp : (start (pause w)).st.remainingTime = w.st.remainingTime := by
    rw [h1]
    exact hp.1
  refine ⟨hp.1, hp.2.1, hp.2.2.2.2.2.1, ?_, ?_, hsp, ?_⟩
  · intro h
    simp [pause, h]
  · intro h
    simp [pause, h]
  · intro hpos
    rw [schedStep_decrement _ (by rw [h1]) (by rw [hsp]; exact hpos), hsp]

/-- C7 witness: `c7_pause_behavior` at the started scenario widget. -/
theorem c7_pause_behavior_witness :
    pause (start scenW0) =
      { start scenW0 with
        st := { (start scenW0).st with interval := false } } ∧
    (start (pause (start scenW0))).st.remainingTime =
      (start scenW0).st.remainingTime ∧
    (schedStep (start (pause (start scenW0)))).st.remainingTime =
      (start scenW0).st.remainingTime - 1 :=
  ⟨(c7_pause_behavior (start scenW0)).2.2.2.1 (by decide),
   (c7_pause_behavior (start scenW0)).2.2.2.2.2.1,
   (c7_pause_behavior (start scenW0)).2.2.2.2.2.2 (by decide)⟩

/-- C8: `reset()`, from any state whatsoever, pauses the timer (and does
not restart it), restores `remainingTime` to the full duration, re-renders
the display as the formatted full duration, removes the "complete" marker,
and invokes no callback. -/
theorem c8_reset_restores (w : World) :
    (reset w).st.remainingTime = w.st.duration ∧
    (reset w).st.duration = w.st.duration ∧
    (reset w).st.interval = false ∧
    (reset w).elem.text = formatTime w.st.format w.st.duration ∧
    "complete" ∉ (reset w).elem.classes ∧
    (reset w).tickCalls = w.tickCalls ∧
    (reset w).completeCalls = w.completeCalls := by
  have hp := pause_st_besides_interval w
  have hr : reset w =
      { st := { (pause w).st with remainingTime := (pause w).st.duration },
        elem := { text := formatTime (pause w).st.format (pause w).st.duration,
                  classes := removeClass (pause w).elem.classes "complete" },
        tickCalls := (pause w).tickCalls,
        completeCalls := (pause w).completeCalls,
        warnings := (pause w).warnings } := by
    simp [reset, updateDisplay]
  rw [hr]
  refine ⟨hp.2.1, hp.2.1, hp.2.2.2.2.2.1, ?_, ?_, hp.2.2.2.2.2.2.2.1,
    hp.2.2.2.2.2.2.2.2⟩
  · rw [hp.2.1, hp.2.2.1]
  · exact not_mem_removeClass _ _

/-- C9: when the element lookup resolves to nothing, construction logs an
error, initializes no timer state, renders nothing, and `initializeTimer`
returns null; when the lookup succeeds, construction initializes and
renders, and `initializeTimer` returns the widget already started. -/
theorem c9_construction_failure (d : Int) (opts : Options) :
    construct none d opts = ConsResult.failed ∧
    (construct none d opts).element = none ∧
    (construct none d opts).errorLogged = true ∧
    initializeTimer none d opts = none ∧
    (∀ el : Elem, ∃ (e : Elem) (st : TState),
      construct (some el) d opts = ConsResult.ok e st ∧
      (construct (some el) d opts).errorLogged = false ∧
      initializeTimer (some el) d opts = some (start (initWorld e st)) ∧
      (start (initWorld e st)).st.interval = true) := by
  refine ⟨rfl, rfl, rfl, rfl, fun el => ⟨_, _, rfl, rfl, rfl, rfl⟩⟩

/-- A widget whose stored callbacks are both null, mid-countdown. -/
def demoPlain : World :=
  { st := { duration := 3, remainingTime := 2, interval := true,
            format := "mm:ss", onComplete := false, onTick := false },
    elem := { text := "00:02", classes := ["timeable-timer"] },
    tickCalls := [], completeCalls := 0, warnings := 0 }

/-- C10: a non-function `onComplete`/`onTick` option is stored as null, so
construction with such an option is indistinguishable from construction
without it; and since every invocation site is guarded by the callback's
presence, a null callback is simply never invoked (nothing is recorded and
no call to a non-function can occur). -/
theorem c10_nonfunction_callbacks (el : Elem) (d : Int) (f : Option String)
    (t c : CbOpt) (w : World) :
    construct (some el) d { format := f, onComplete := .nonfunction, onTick := t } =
      construct (some el) d { format := f, onComplete := .absent, onTick := t } ∧
    construct (some el) d { format := f, onComplete := c, onTick := .nonfunction } =
      construct (some el) d { format := f, onComplete := c, onTick := .absent } ∧
    (∀ (e : Elem) (st : TState),
      construct (some el) d { format := f, onComplete := .nonfunction, onTick := t } =
        ConsResult.ok e st → st.onComplete = false) ∧
    (∀ (e : Elem) (st : TState),
      construct (some el) d { format := f, onComplete := c, onTick := .nonfunction } =
        ConsResult.ok e st → st.onTick = false) ∧
    (w.st.onComplete = false →
      (complete w).completeCalls = w.completeCalls) ∧
    (w.st.onTick = false → (tick w).tickCalls = w.tickCalls) := by
  refine ⟨rfl, rfl, ?_, ?_, ?_, ?_⟩
  · intro e st h
    simp only [construct, ConsResult.ok.injEq] at h
    rw [← h.2]
    rfl
  · intro e st h
    simp only [construct, ConsResult.ok.injEq] at h
    rw [← h.2]
    rfl
  · intro h
    have hoc : (pause w).st.onComplete = false := by
      rw [(pause_st_besides_interval w).2.2.2.1, h]
    simp only [complete, hoc]
    simp [(pause_st_besides_interval w).2.2.2.2.2.2.2.2]
  · intro h
    simp only [tick, complete, pause, updateDisplay]
    split_ifs <;> simp_all

/-- C10 witness: non-function options at the scenario element, and the
null-callback widget `demoPlain` recording nothing. -/
theorem c10_nonfunction_callbacks_witness :
    construct (some demoElem) 3
        { format := some "mm:ss", onComplete := CbOpt.nonfunction,
          onTick := CbOpt.absent } =
      construct (some demoElem) 3
        { format := some "mm:ss", onComplete := CbOpt.absent,
          onTick := CbOpt.absent } ∧
    (complete demoPlain).completeCalls = demoPlain.completeCalls ∧
    (tick demoPlain).tickCalls = demoPlain.tickCalls :=
  ⟨(c10_nonfunction_callbacks demoElem 3 (some "mm:ss") CbOpt.absent
      CbOpt.absent demoPlain).1,
   (c10_nonfunction_callbacks demoElem 3 (some "mm:ss") CbOpt.absent
      CbOpt.absent demoPlain).2.2.2.2.1 rfl,
   (c10_nonfunction_callbacks demoElem 3 (some "mm:ss") CbOpt.absent
      CbOpt.absent demoPlain).2.2.2.2.2 rfl⟩
